import Mathlib

/-!
Verification of the declarative HTTP routing, validation, and lifecycle
engine of the `code-style` repository, as implemented by its two example
servers:

* the Notes API (`example/packages/api/src/createServer.ts` and the
  variant of the same file whose `handleRequest` checks the context after
  route matching, together with `utils/http.ts`, `errors.ts`, and the
  notes controllers), and
* the Todo API (`example/src/createServer.ts`, `utils/createRouter.ts`,
  `utils/http.ts`, `models/todos.ts`, `errors.ts`).

JavaScript values exchanged over HTTP are modelled by a small inductive
`Json` type together with an executable parser standing in for
`JSON.parse` on the JSON fragment the examples use.  zod object schemas
are modelled as a closed list of per-field checks with a single recursive
validator, and Node's `http.Server` listen/close behaviour is modelled
explicitly where the lifecycle code depends on it.
-/

/-- JSON values: the data model for request/response bodies and for the
structured `details` payload carried by validation failures. -/
inductive Json where
  | null : Json
  | bool : Bool → Json
  | num : Int → Json
  | str : String → Json
  | arr : List Json → Json
  | obj : List (String × Json) → Json
deriving Repr, Inhabited

namespace Json

/-- Field lookup on a JSON object, mirroring JavaScript property access:
the first binding of the key wins (our builders never produce duplicate
keys). -/
def lookup (j : Json) (key : String) : Option Json :=
  match j with
  | .obj fields => fields.lookup key
  | _ => none

/-- Extract a string field, defaulting to `""`; used where the TypeScript
source reads an already-validated string property. -/
def getStr (j : Json) (key : String) : String :=
  match j.lookup key with
  | some (.str s) => s
  | _ => ""

end Json

/-- Substring test mirroring JavaScript `String.prototype.includes`. -/
def strIncludes (haystack needle : String) : Bool :=
  (List.range (haystack.length + 1)).any fun i =>
    needle.toList.isPrefixOf (haystack.toList.drop i)

/-- Split a character list on a separator character. -/
def splitCharsOn (sep : Char) : List Char → List (List Char)
  | [] => [[]]
  | c :: cs =>
    let groups := splitCharsOn sep cs
    if c = sep then [] :: groups
    else
      match groups with
      | g :: gs => (c :: g) :: gs
      | [] => [[c]]

/-- Split a string on a separator character, mirroring
`String.prototype.split` with a one-character separator (and
`String.splitOn`, which the embedding avoids only because it is opaque to
kernel reduction). -/
def splitOnChar (sep : Char) (s : String) : List String :=
  (splitCharsOn sep s.toList).map String.mk

/-- Join strings with a separator character (inverse of `splitOnChar`). -/
def joinWith (sep : Char) : List String → String
  | [] => ""
  | s :: rest => rest.foldl (fun acc t => acc ++ String.mk [sep] ++ t) s

/-- JavaScript `String.prototype.toLowerCase` on the ASCII range used by
the examples. -/
def jsToLower (s : String) : String :=
  String.mk (s.toList.map Char.toLower)

/-! ## An executable model of `JSON.parse`

The parser covers the JSON fragment exercised by the examples: objects,
arrays, double-quoted strings without escape sequences, optionally signed
integer numerals, `true`, `false` and `null`, with insignificant
whitespace.  It is fuel-indexed to make termination structural. -/

/-- Skip JSON insignificant whitespace. -/
def skipWs : List Char → List Char
  | c :: cs =>
    if c = ' ' ∨ c = '\n' ∨ c = '\t' ∨ c = '\r' then skipWs cs else c :: cs
  | [] => []

/-- Consume the characters of a string literal up to the closing quote
(escape sequences are outside the modelled fragment). -/
def takeStringChars : List Char → Option (List Char × List Char)
  | [] => none
  | c :: cs =>
    if c = '"' then some ([], cs)
    else if c = '\\' then none
    else
      match takeStringChars cs with
      | some (s, rest) => some (c :: s, rest)
      | none => none

/-- Consume a maximal run of decimal digits. -/
def takeDigits : List Char → (List Char × List Char)
  | [] => ([], [])
  | c :: cs =>
    if c.isDigit then
      let (d, r) := takeDigits cs
      (c :: d, r)
    else ([], c :: cs)

/-- Numeric value of a digit run. -/
def digitsToNat (ds : List Char) : Nat :=
  ds.foldl (fun acc c => acc * 10 + (c.toNat - 48)) 0

mutual

/-- Parse one JSON value; returns the value and the unconsumed input. -/
def parseValue : Nat → List Char → Option (Json × List Char)
  | 0, _ => none
  | fuel + 1, input =>
    match skipWs input with
    | [] => none
    | 't' :: 'r' :: 'u' :: 'e' :: rest => some (.bool true, rest)
    | 'f' :: 'a' :: 'l' :: 's' :: 'e' :: rest => some (.bool false, rest)
    | 'n' :: 'u' :: 'l' :: 'l' :: rest => some (.null, rest)
    | '"' :: rest =>
      match takeStringChars rest with
      | some (s, r) => some (.str (String.mk s), r)
      | none => none
    | '[' :: rest =>
      (match skipWs rest with
       | ']' :: r => some (.arr [], r)
       | other =>
         match parseItems fuel other with
         | some (xs, r) => some (.arr xs, r)
         | none => none)
    | '\x7b' :: rest =>
      (match skipWs rest with
       | '\x7d' :: r => some (.obj [], r)
       | other =>
         match parseFields fuel other with
         | some (fs, r) => some (.obj fs, r)
         | none => none)
    | '-' :: rest =>
      (match takeDigits rest with
       | ([], _) => none
       | (ds, r) => some (.num (-(digitsToNat ds : Int)), r))
    | c :: rest =>
      if c.isDigit then
        match takeDigits (c :: rest) with
        | ([], _) => none
        | (ds, r) => some (.num (digitsToNat ds : Int), r)
      else none

/-- Parse the comma-separated items of a (non-empty) array, consuming the
closing bracket. -/
def parseItems : Nat → List Char → Option (List Json × List Char)
  | 0, _ => none
  | fuel + 1, input =>
    match parseValue fuel input with
    | none => none
    | some (v, rest) =>
      match skipWs rest with
      | ',' :: r =>
        (match parseItems fuel r with
         | some (xs, r2) => some (v :: xs, r2)
         | none => none)
      | ']' :: r => some ([v], r)
      | _ => none

/-- Parse the comma-separated fields of a (non-empty) object, consuming
the closing brace. -/
def parseFields : Nat → List Char → Option (List (String × Json) × List Char)
  | 0, _ => none
  | fuel + 1, input =>
    match skipWs input with
    | '"' :: rest =>
      (match takeStringChars rest with
       | none => none
       | some (key, r1) =>
         match skipWs r1 with
         | ':' :: r2 =>
           (match parseValue fuel r2 with
            | none => none
            | some (v, r3) =>
              match skipWs r3 with
              | ',' :: r4 =>
                (match parseFields fuel r4 with
                 | some (fs, r5) => some ((String.mk key, v) :: fs, r5)
                 | none => none)
              | '\x7d' :: r4 => some ([(String.mk key, v)], r4)
              | _ => none)
         | _ => none)
    | _ => none

end

/-- Model of `JSON.parse`: `none` when parsing throws (this is how
`parseJsonSafely` in `utils/http.ts` detects a malformed body). -/
def parseJson (s : String) : Option Json :=
  match parseValue (s.length + 1) s.toList with
  | some (j, rest) =>
    match skipWs rest with
    | [] => some j
    | _ => none
  | none => none

/-! ## Schema model

Following the spec's design note, the zod object schemas of the Notes API
are modelled as a closed, tagged set of per-field checks with a single
recursive validator.  `safeParse` of a `z.object({...})` either strips the
input down to the declared fields or reports every failing field; the
formatted error is modelled as a JSON object keyed by field name. -/

/-- UUID shape check modelling `z.uuid()`: 8-4-4-4-12 hexadecimal groups
separated by hyphens. -/
def isUuid (s : String) : Bool :=
  let cs := s.toList
  cs.length = 36 &&
    (List.range 36).all fun i =>
      let c := cs.getD i ' '
      if i = 8 ∨ i = 13 ∨ i = 18 ∨ i = 23 then c = '-'
      else c.isDigit ∨ ('a' ≤ c ∧ c ≤ 'f') ∨ ('A' ≤ c ∧ c ≤ 'F')

/-- The field checks used by the Notes API schemas. -/
inductive VCheck where
  | vstr : Nat → Option Nat → VCheck
  | vuuid : VCheck
  | vbool : VCheck
  | vany : VCheck
deriving Repr

/-- One declared field of an object schema, with its optionality marker. -/
structure FieldSpec where
  name : String
  check : VCheck
  optional : Bool := false
deriving Repr

/-- An object schema is its list of declared fields. -/
abbrev ObjSchema := List FieldSpec

/-- Does a JSON value satisfy a single field check? -/
def checkValue : VCheck → Json → Bool
  | .vstr minLen maxLen, .str s =>
    minLen ≤ s.length && (match maxLen with | some m => s.length ≤ m | none => true)
  | .vstr _ _, _ => false
  | .vuuid, .str s => isUuid s
  | .vuuid, _ => false
  | .vbool, .bool _ => true
  | .vbool, _ => false
  | .vany, _ => true

/-- Validate one declared field of an object input, returning the kept
binding on success and a formatted issue on failure. -/
def validateField (input : Json) (f : FieldSpec) :
    Except (String × Json) (List (String × Json)) :=
  match input.lookup f.name with
  | none =>
    if f.optional then .ok []
    else .error (f.name, .str "Required")
  | some v =>
    if checkValue f.check v then .ok [(f.name, v)]
    else .error (f.name, .str "Invalid input")

/-- Model of `schema.safeParse(input)` for a zod object schema: a
non-object input fails outright; otherwise every declared field is
checked, unknown keys are stripped, and all failing fields are collected
into the formatted error object. -/
def safeParse (schema : ObjSchema) (input : Json) : Except Json Json :=
  match input with
  | .obj _ =>
    let results := schema.map (validateField input)
    let issues := results.filterMap fun r =>
      match r with
      | .error issue => some issue
      | .ok _ => none
    if issues.isEmpty then
      .ok (.obj (results.filterMap fun r =>
        match r with
        | .ok [kv] => some kv
        | _ => none))
    else .error (.obj issues)
  | _ => .error (.obj [("_input", .str "Expected object")])

/-! ## Error taxonomy of the Notes API (`errors.ts`)

The `ApplicationError` class carries a status code and a machine-readable
code; `ValidationError` fixes them to `400`/`VALIDATION_FAILED` and adds a
`details` payload.  Any other thrown value reaches the dispatcher's final
catch branch. -/

/-- Thrown errors as seen by the Notes API dispatcher: `validation`
models `ValidationError`, `application` models any other
`ApplicationError`, and `unexpected` models every other thrown value. -/
inductive Err where
  | validation : String → Json → Err
  | application : Nat → String → String → Err
  | unexpected : String → Err
deriving Repr

/-- Status code of a thrown error, as fixed by the `errors.ts`
constructors (a `ValidationError` always has status 400). -/
def Err.statusCode : Err → Nat
  | .validation _ _ => 400
  | .application sc _ _ => sc
  | .unexpected _ => 500

/-- Machine-readable code of a thrown error (a `ValidationError` always
carries `VALIDATION_FAILED`). -/
def Err.code : Err → String
  | .validation _ _ => "VALIDATION_FAILED"
  | .application _ c _ => c
  | .unexpected _ => "INTERNAL_ERROR"

/-! ## HTTP model -/

/-- An incoming request: `method` and `url` are optional as in Node's
`IncomingMessage` (and checked for JavaScript truthiness by the
dispatcher), `contentType` is the `content-type` header, and `rawBody` is
the buffered request body. -/
structure Request where
  method : Option String := none
  url : Option String := none
  contentType : Option String := none
  rawBody : String := ""

/-- An outgoing response: the status code and the body written by
`response.end` (`none` models a bare `writeHead(status); end()`). -/
structure Response where
  status : Nat
  body : Option Json
deriving Repr

/-- Model of `sendJson(response, statusCode, payload)`. -/
def sendJson (statusCode : Nat) (payload : Json) : Response :=
  { status := statusCode, body := some payload }

/-- Model of `response.writeHead(status); response.end()`: a terminating
response with an empty body. -/
def bare (statusCode : Nat) : Response :=
  { status := statusCode, body := none }

/-- The declared request body expectation of a controller
(`{ contentType, schema }` in the controller schema). -/
structure BodyDef where
  contentType : String
  schema : ObjSchema

/-- The content-type precondition of body reading:
`request.headers["content-type"]?.includes(bodyDefinition.contentType)`
(an absent header is rejected by the optional chaining). -/
def contentTypeAccepts (request : Request) (bodyDefinition : BodyDef) : Bool :=
  match request.contentType with
  | some h => strIncludes h bodyDefinition.contentType
  | none => false

/-- Model of `getBodyFromRequest(request, schema)` from
`example/packages/api/src/utils/http.ts`: requires a declared body, then a
matching `content-type` header, then a non-empty raw body, then a body
that `JSON.parse` accepts, and finally a body that the schema accepts.
Every failure is a `ValidationError`. -/
def getBodyFromRequest (request : Request) (body : Option BodyDef) :
    Except Err Json :=
  match body with
  | none => .error (.validation "Controller schema does not define a body" .null)
  | some bodyDefinition =>
    if !contentTypeAccepts request bodyDefinition then
      .error (.validation
        ("Unsupported content type. Expected " ++ bodyDefinition.contentType) .null)
    else if request.rawBody.length = 0 then
      .error (.validation "Request body is required" .null)
    else
      match parseJson request.rawBody with
      | none => .error (.validation "Invalid JSON payload" .null)
      | some parsed =>
        match safeParse bodyDefinition.schema parsed with
        | .error details => .error (.validation "Invalid request body" details)
        | .ok data => .ok data

/-! ## The Notes API application context and controllers -/

/-- A stored note record (`schemas/notes.ts`). -/
structure Note where
  id : String
  title : String
  content : String
  createdAt : String
  updatedAt : String

/-- JSON representation of a note, as serialized by the notes model. -/
def noteJson (n : Note) : Json :=
  .obj [("id", .str n.id), ("title", .str n.title), ("content", .str n.content),
        ("createdAt", .str n.createdAt), ("updatedAt", .str n.updatedAt)]

/-- The `AppContext` of the Notes API, restricted to what the controllers
consume: the notes repository contents, plus the identifier and timestamp
the environment would supply to `randomUUID()` / `new Date()` for the
next created note. -/
structure AppContext where
  notes : List Note
  nextId : String := "00000000-0000-0000-0000-000000000000"
  now : String := "1970-01-01T00:00:00.000Z"

/-- `ControllerSchema`: the declarative per-route description (method,
path, optional params/query/body schemas; response descriptors are kept
as their documentation payload). -/
structure ControllerSchema where
  method : String
  path : String
  summary : String := ""
  params : Option ObjSchema := none
  query : Option ObjSchema := none
  body : Option BodyDef := none

/-- `ControllerDefinition`: a schema paired with a handler.  A handler
receives the context, the raw request and the validated params/query and
either returns the response it wrote or throws. -/
structure ControllerDefinition where
  schema : ControllerSchema
  handler : AppContext → Request → Json → Json → Except Err Response

/-- `NoteIdentifierSchema`: `{ noteId: z.uuid() }`. -/
def NoteIdentifierSchema : ObjSchema := [{ name := "noteId", check := .vuuid }]

/-- `CreateNoteRequestSchema`: title 1–120 characters, non-empty content. -/
def CreateNoteRequestSchema : ObjSchema :=
  [{ name := "title", check := .vstr 1 (some 120) },
   { name := "content", check := .vstr 1 none }]

/-- The declared body of `POST /notes`. -/
def createNoteBody : BodyDef :=
  { contentType := "application/json", schema := CreateNoteRequestSchema }

/-- The health controller (`controllers/health/get.ts`). -/
def healthController : ControllerDefinition where
  schema := { method := "GET", path := "/health", summary := "Readiness probe" }
  handler := fun _ _ _ _ => .ok (sendJson 200 (.obj [("status", .str "healthy")]))

/-- The list-notes controller (`controllers/notes/get.ts`). -/
def listNotesController : ControllerDefinition where
  schema := { method := "GET", path := "/notes", summary := "List notes",
              params := some [] }
  handler := fun context _ _ _ =>
    .ok (sendJson 200 (.obj [("notes", .arr (context.notes.map noteJson))]))

/-- The create-note controller (`controllers/notes/post.ts`): the handler
itself reads and validates the body via `getBodyFromRequest`, then asks
the model to create the note and replies 201. -/
def createNoteController : ControllerDefinition where
  schema := { method := "POST", path := "/notes", summary := "Create a new note",
              params := some [], body := some createNoteBody }
  handler := fun context request _ _ => do
    let body ← getBodyFromRequest request (some createNoteBody)
    let note : Note :=
      { id := context.nextId, title := body.getStr "title",
        content := body.getStr "content",
        createdAt := context.now, updatedAt := context.now }
    .ok (sendJson 201 (noteJson note))

/-- The get-note controller (`controllers/notes/[noteId]/get.ts`). -/
def getNoteController : ControllerDefinition where
  schema := { method := "GET", path := "/notes/\x7bnoteId\x7d",
              summary := "Get note by identifier",
              params := some NoteIdentifierSchema }
  handler := fun context _ params _ =>
    let noteId := params.getStr "noteId"
    match context.notes.find? (fun n => n.id = noteId) with
    | none => .ok (sendJson 404
        (.obj [("error", .str "Note not found"), ("code", .str "NOTE_NOT_FOUND")]))
    | some n => .ok (sendJson 200 (noteJson n))

/-- The controllers listed in `documentedControllers` in
`createServer.ts` — the only input given to the OpenAPI generator. -/
def documentedControllers : List ControllerDefinition :=
  [listNotesController, createNoteController, getNoteController]

/-! ## Path patterns and route matching

`buildRoutes` turns each controller path into a `URLPattern` after
rewriting `{name}` segments to `:name`.  Patterns are modelled as segment
lists; matching requires an equal number of segments, byte-for-byte equal
literals and captures each named segment verbatim. -/

/-- One compiled pattern segment. -/
inductive Seg where
  | lit : String → Seg
  | param : String → Seg

/-- Compile one path component: a `{name}` component becomes a named
parameter (`toUrlPatternPath` rewrites it to `:name` for `URLPattern`). -/
def segOfComponent (component : String) : Seg :=
  match component.toList with
  | '\x7b' :: rest =>
    if rest.getLast? = some '\x7d' then .param (String.mk rest.dropLast)
    else .lit component
  | _ => .lit component

/-- Compile a controller path into pattern segments (`toUrlPatternPath`
plus `URLPattern` compilation). -/
def compilePath (path : String) : List Seg :=
  (splitOnChar '/' path).map segOfComponent

/-- Match pattern segments against the components of a concrete path,
producing the named captures (`match.pathname.groups`). -/
def matchSegs : List Seg → List String → Option (List (String × String))
  | [], [] => some []
  | .lit l :: segs, c :: cs =>
    if l = c then matchSegs segs cs else none
  | .param name :: segs, c :: cs =>
    (matchSegs segs cs).map fun groups => (name, c) :: groups
  | _, _ => none

/-- The pathname of a request URL: everything before the query string. -/
def pathOf (url : String) : String :=
  ((splitOnChar '?' url).headD url)

/-- The decoded query string as a flat string-keyed map with last-wins
semantics (`Object.fromEntries(url.searchParams.entries())`). -/
def queryOf (url : String) : List (String × String) :=
  match splitOnChar '?' url with
  | _ :: qs :: _ =>
    (splitOnChar '&' qs).foldl (fun acc pair =>
      match splitOnChar '=' pair with
      | [] => acc
      | k :: rest =>
        if k = "" then acc
        else (acc.filter fun kv => kv.1 ≠ k) ++ [(k, joinWith '=' rest)]) []
  | _ => []

/-- A route-table entry (`buildRoutes`): the controller method, its
compiled pattern and the controller itself. -/
structure Route where
  method : String
  segs : List Seg
  controller : ControllerDefinition

/-- `buildRoutes(controllers)`. -/
def buildRoutes (controllers : List ControllerDefinition) : List Route :=
  controllers.map fun c =>
    { method := c.schema.method, segs := compilePath c.schema.path, controller := c }

/-- Try a single route against a request method and path: the method must
be equal and the pattern must match (`route.method === request.method &&
route.pattern.test(url)`). -/
def tryRoute (route : Route) (method path : String) :
    Option (List (String × String)) :=
  if route.method = method then matchSegs route.segs (splitOnChar '/' path) else none

/-- Scan the route table in declaration order and return the first entry
that matches, together with its captures (the `for (const route of
routes)` loop / `routes.find(...)`). -/
def findRoute (routes : List Route) (method path : String) :
    Option (Route × List (String × String)) :=
  match routes with
  | [] => none
  | route :: rest =>
    match tryRoute route method path with
    | some groups => some (route, groups)
    | none => findRoute rest method path

/-- Captured groups as the JavaScript object handed to `safeParse`
(`match.pathname.groups`). -/
def groupsToJson (groups : List (String × String)) : Json :=
  .obj (groups.map fun kv => (kv.1, .str kv.2))

/-- `parseParams(controller, match)`: no params schema means no validation
and an empty params object; otherwise `safeParse` over the captures, and
failure throws `ValidationError("Invalid request parameters", formatted)`. -/
def parseParams (controller : ControllerDefinition)
    (groups : List (String × String)) : Except Err Json :=
  match controller.schema.params with
  | none => .ok (.obj [])
  | some paramsSchema =>
    match safeParse paramsSchema (groupsToJson groups) with
    | .error details => .error (.validation "Invalid request parameters" details)
    | .ok data => .ok data

/-- `parseQuery(controller, url)`: the flat query map validated against
the query schema when one is declared. -/
def parseQuery (controller : ControllerDefinition)
    (query : List (String × String)) : Except Err Json :=
  match controller.schema.query with
  | none => .ok (.obj [])
  | some querySchema =>
    match safeParse querySchema (groupsToJson query) with
    | .error details => .error (.validation "Invalid query parameters" details)
    | .ok data => .ok data

/-- The dispatcher's catch block: a `ValidationError` is sent with its
details, any other `ApplicationError` as `{error, code}`, and every other
thrown value as a generic 500 envelope. -/
def translateError : Err → Response
  | .validation message details =>
    sendJson 400 (.obj [("error", .str message),
                        ("code", .str "VALIDATION_FAILED"),
                        ("details", details)])
  | .application statusCode code message =>
    sendJson statusCode (.obj [("error", .str message), ("code", .str code)])
  | .unexpected _ =>
    sendJson 500 (.obj [("error", .str "Internal server error"),
                        ("code", .str "INTERNAL_ERROR")])

/-- The observable outcome of dispatching one request: the single
terminating response, and whether control reached the matched
controller's handler. -/
structure Outcome where
  response : Response
  handlerInvoked : Bool
deriving Repr

/-- Model of `handleRequest` (the `createServer.ts` variant that gates on
the context after matching): reject a request with a falsy method or URL
with a bare 400, scan the route table for the first match (bare 404 when
none), answer a bare 503 when the `AppContext` has not been built, then
validate params and query (throwing skips the handler) and finally run
the handler, translating anything thrown into an error response. -/
def handleRequest (routes : List Route) (context : Option AppContext)
    (request : Request) : Outcome :=
  if request.method.getD "" = "" ∨ request.url.getD "" = "" then
    { response := bare 400, handlerInvoked := false }
  else
    let method := request.method.getD ""
    let url := request.url.getD ""
    match findRoute routes method (pathOf url) with
    | none => { response := bare 404, handlerInvoked := false }
    | some (route, groups) =>
      match context with
      | none => { response := bare 503, handlerInvoked := false }
      | some activeContext =>
        match parseParams route.controller groups with
        | .error e => { response := translateError e, handlerInvoked := false }
        | .ok params =>
          match parseQuery route.controller (queryOf url) with
          | .error e => { response := translateError e, handlerInvoked := false }
          | .ok query =>
            match route.controller.handler activeContext request params query with
            | .error e => { response := translateError e, handlerInvoked := true }
            | .ok response => { response := response, handlerInvoked := true }

/-! ## OpenAPI synthesis (`generateOpenApiDocument`) -/

/-- Association-list lookup mirroring JavaScript property access on the
`paths` object. -/
def lookupAssoc {α : Type} (xs : List (String × α)) (key : String) : Option α :=
  match xs with
  | [] => none
  | (k, v) :: rest => if k = key then some v else lookupAssoc rest key

/-- Keys of an association list (the own-property names of the modelled
JavaScript object). -/
def assocKeys {α : Type} (xs : List (String × α)) : List String :=
  xs.map Prod.fst

/-- JavaScript object assignment `o[k] = v`: overwrite in place when the
key exists, append otherwise (insertion order preserved). -/
def setAssoc {α : Type} (xs : List (String × α)) (key : String) (value : α) :
    List (String × α) :=
  match xs with
  | [] => [(key, value)]
  | (k, v) :: rest =>
    if k = key then (k, value) :: rest else (k, v) :: setAssoc rest key value

/-- `buildOpenApiOperation(controller)`: the operation object emitted for
one controller — summary, one path/query parameter descriptor per
declared field, the request body under its declared content type, and the
response descriptors. -/
def buildOpenApiOperation (controller : ControllerDefinition) : Json :=
  let paramDescriptors :=
    (controller.schema.params.getD []).map fun f =>
      Json.obj [("name", .str f.name), ("in", .str "path"),
                ("required", .bool true)]
  let queryDescriptors :=
    (controller.schema.query.getD []).map fun f =>
      Json.obj [("name", .str f.name), ("in", .str "query"),
                ("required", .bool (!f.optional))]
  let parameters := paramDescriptors ++ queryDescriptors
  Json.obj
    ([("summary", .str controller.schema.summary)] ++
     (if parameters.isEmpty then [] else [("parameters", .arr parameters)]) ++
     (match controller.schema.body with
      | some b => [("requestBody",
          Json.obj [("required", .bool true), ("contentType", .str b.contentType)])]
      | none => []))

/-- One iteration of the `paths`-building loop: fetch (or create) the
path item for the controller's path and assign its operation under the
lower-cased method. -/
def insertOperation (paths : List (String × List (String × Json)))
    (controller : ControllerDefinition) : List (String × List (String × Json)) :=
  let method := jsToLower controller.schema.method
  let pathItem := (lookupAssoc paths controller.schema.path).getD []
  setAssoc paths controller.schema.path
    (setAssoc pathItem method (buildOpenApiOperation controller))

/-- The `paths` object of the generated document: iterate the given
controllers in order, creating the path item on first sight of a path and
assigning the operation under the lower-cased method. -/
def genPaths (controllers : List ControllerDefinition) :
    List (String × List (String × Json)) :=
  controllers.foldl insertOperation []

/-- The key a controller occupies in the generated document: its path and
lower-cased method. -/
def operationKey (controller : ControllerDefinition) : String × String :=
  (controller.schema.path, jsToLower controller.schema.method)

/-- The intended reading of a generated `paths` object with respect to
the controllers already processed: every processed controller is found
under its path and lower-cased method, path keys are unique, and every
operation in every path item belongs to exactly one processed
controller. -/
def pathsRepresent (done : List ControllerDefinition)
    (paths : List (String × List (String × Json))) : Prop :=
  (∀ c ∈ done, ∃ item, lookupAssoc paths c.schema.path = some item ∧
     lookupAssoc item (jsToLower c.schema.method) = some (buildOpenApiOperation c))
  ∧ (assocKeys paths).Nodup
  ∧ (∀ p item, lookupAssoc paths p = some item →
      (assocKeys item).Nodup ∧ item ≠ [] ∧
      ∀ m op, lookupAssoc item m = some op →
        ∃ c ∈ done, c.schema.path = p ∧ jsToLower c.schema.method = m ∧
          op = buildOpenApiOperation c)

/-- `generateOpenApiDocument(config, controllers)` as the JSON tree the
`/openapi` controller sends. -/
def generateOpenApiDocument (controllers : List ControllerDefinition) : Json :=
  .obj [("openapi", .str "3.1.0"),
        ("info", .obj [("version", .str "0.0.0"), ("title", .str "Notes API")]),
        ("paths", .obj ((genPaths controllers).map fun p => (p.1, Json.obj p.2)))]

/-- The OpenAPI controller (`createOpenApiController(documentedControllers)`):
serves the document generated from the documented controllers only. -/
def openApiController : ControllerDefinition where
  schema := { method := "GET", path := "/openapi", summary := "OpenAPI document" }
  handler := fun _ _ _ _ =>
    .ok (sendJson 200 (generateOpenApiDocument documentedControllers))

/-- The Notes API route table as assembled in `createServer`:
health first, then the documented controllers, then the OpenAPI route. -/
def notesRoutes : List Route :=
  buildRoutes ([healthController] ++ documentedControllers ++ [openApiController])

/-! ## Server lifecycle of the Notes API (`createServer.ts`)

`start` lazily builds the context, binds the listener and reads the
concretely bound port back into `config.port`; `stop` releases both.  The
operating system's port assignment is passed in explicitly: binding port
0 yields the supplied ephemeral port, binding any other port yields that
port.  Both functions return `Except` so that a thrown error would be
visible to the caller; the guards make these paths unreachable. -/

namespace NotesLifecycle

/-- The closure state of `createServer`: the live listener (with its
bound port) or `null`, whether the context has been built, and the
mutable `config.port`. -/
structure ServerState where
  httpServer : Option Nat
  contextLive : Bool
  configPort : Nat
deriving Repr, DecidableEq

/-- The state of a freshly created server with the given configured port. -/
def initialState (port : Nat) : ServerState :=
  { httpServer := none, contextLive := false, configPort := port }

/-- `start()`: returns immediately when a listener already exists;
otherwise builds the context, binds `config.port` (the OS picks
`osEphemeralPort` when it is 0) and stores the bound port back into
`config.port` from `server.address()`. -/
def start (osEphemeralPort : Nat) (s : ServerState) : Except String ServerState :=
  if s.httpServer.isSome then .ok s
  else
    let bound := if s.configPort = 0 then osEphemeralPort else s.configPort
    .ok { httpServer := some bound, contextLive := true, configPort := bound }

/-- `stop()`: returns immediately when no listener exists; otherwise
closes the listener and releases the context, keeping `config.port`. -/
def stop (s : ServerState) : Except String ServerState :=
  if s.httpServer.isNone then .ok s
  else .ok { httpServer := none, contextLive := false, configPort := s.configPort }

/-- `restart()` is literally `await stop(); await start()`. -/
def restart (osEphemeralPort : Nat) (s : ServerState) : Except String ServerState := do
  let s1 ← stop s
  start osEphemeralPort s1

end NotesLifecycle

/-! ## The Todo API (`example/src`)

Errors (`errors.ts`), the centralized error translator
(`utils/http.ts`), the todos model (`models/todos.ts`) and the server
lifecycle (`createServer.ts`). -/

namespace TodoApi

/-- Thrown errors as seen by the Todo API: `zodError` models a thrown
`z.ZodError` with its issue list, `appError` models the `AppError` class
(status code, machine-readable code, message) and `jsError` every other
thrown value. -/
inductive TodoErr where
  | zodError : Json → TodoErr
  | appError : Nat → String → String → TodoErr
  | jsError : String → TodoErr
deriving Repr

/-- `ValidationError` from the Todo API's `errors.ts`. -/
def ValidationError (message : String) : TodoErr :=
  .appError 400 "VALIDATION_ERROR" message

/-- `NotFoundError` from the Todo API's `errors.ts`. -/
def NotFoundError (message : String) : TodoErr :=
  .appError 404 "NOT_FOUND" message

/-- `ConflictError` from the Todo API's `errors.ts`. -/
def ConflictError (message : String) : TodoErr :=
  .appError 409 "CONFLICT" message

/-- `handleHttpError(response, error)` from `utils/http.ts`: a `ZodError`
becomes a 400 `VALIDATION_ERROR` envelope carrying the issues, an
`AppError` keeps its own status and code, and anything else becomes a
generic 500. -/
def handleHttpError : TodoErr → Response
  | .zodError issues =>
    sendJson 400 (.obj [("error", .str "Validation failed"),
                        ("code", .str "VALIDATION_ERROR"),
                        ("details", issues)])
  | .appError statusCode code message =>
    sendJson statusCode (.obj [("error", .str message), ("code", .str code)])
  | .jsError _ =>
    sendJson 500 (.obj [("error", .str "Internal server error"),
                        ("code", .str "INTERNAL_SERVER_ERROR")])

/-- A stored todo record (`schemas/todos.ts`). -/
structure Todo where
  id : String
  title : String
  completed : Bool
  createdAt : String
  updatedAt : String
deriving Repr, DecidableEq

/-- The Todo API context, restricted to what the model consumes: the
lifecycle flag consulted by `assertContextAlive` and the todos `Map` kept
as its values in insertion order. -/
structure Context where
  alive : Bool
  todos : List Todo

/-- `Map.set` on the todos store: replace in place when the id exists,
append otherwise. -/
def setTodo (todos : List Todo) (todo : Todo) : List Todo :=
  if todos.any (fun t => t.id = todo.id) then
    todos.map fun t => if t.id = todo.id then todo else t
  else todos ++ [todo]

/-- `UpdateTodoInput`: both fields optional. -/
structure UpdateTodoInput where
  title : Option String := none
  completed : Option Bool := none

/-- `createTodo(context, input)`: refuses a dead context, throws
`ConflictError` when any stored todo's lower-cased title equals the
lower-cased input title, and otherwise inserts a fresh uncompleted todo.
The identifier `randomUUID()` would produce and the `new Date()`
timestamp are passed in explicitly. -/
def createTodo (context : Context) (title : String) (newId now : String) :
    Except TodoErr (Todo × Context) :=
  if !context.alive then .error (.jsError "Context is closed")
  else
    match context.todos.find? (fun t => jsToLower t.title = jsToLower title) with
    | some _ => .error (ConflictError "Todo title must be unique")
    | none =>
      let todo : Todo :=
        { id := newId, title := title, completed := false,
          createdAt := now, updatedAt := now }
      .ok (todo, { context with todos := setTodo context.todos todo })

/-- `updateTodo(context, todoId, input)`: refuses a dead context, throws
`NotFoundError` for an unknown id, and throws `ConflictError` when the
update carries a truthy title whose lower-casing differs from the current
title's and some other todo already has that lower-cased title; otherwise
merges the input over the current record. -/
def updateTodo (context : Context) (todoId : String) (input : UpdateTodoInput)
    (now : String) : Except TodoErr (Todo × Context) :=
  if !context.alive then .error (.jsError "Context is closed")
  else
    match context.todos.find? (fun t => t.id = todoId) with
    | none => .error (NotFoundError "Todo not found")
    | some current =>
      let conflict : Bool :=
        match input.title with
        | some newTitle =>
          newTitle != "" && jsToLower newTitle != jsToLower current.title &&
            context.todos.any fun t =>
              t.id != todoId && jsToLower t.title == jsToLower newTitle
        | none => false
      if conflict then .error (ConflictError "Todo title must be unique")
      else
        let updated : Todo :=
          { current with
            title := input.title.getD current.title,
            completed := input.completed.getD current.completed,
            updatedAt := now }
        .ok (updated, { context with todos := setTodo context.todos updated })

/-! ### Todo server lifecycle (`createServer.ts`)

`stop()` flips the lifecycle flag, destroys the tracked sockets and then
calls `httpServer.close`; Node's `net.Server.close` invokes its callback
with an `ERR_SERVER_NOT_RUNNING` error when the server is not listening,
which the promise wrapper turns into a rejection. -/

/-- The observable state of the Todo app server: the context lifecycle
flag, whether the listener is accepting connections, the number of
tracked open sockets, and whether the context has been destroyed. -/
structure AppServerState where
  alive : Bool
  listening : Bool
  sockets : Nat
  contextDestroyed : Bool
deriving Repr, DecidableEq

/-- The state of a freshly created Todo app server (`createContext` sets
`lifecycle.alive` to `true`). -/
def appInitial : AppServerState :=
  { alive := true, listening := false, sockets := 0, contextDestroyed := false }

/-- Node's `net.Server.close(callback)`: the callback receives
`ERR_SERVER_NOT_RUNNING` when the server is not listening. -/
def nodeServerClose (listening : Bool) : Except String Unit :=
  if listening then .ok () else .error "ERR_SERVER_NOT_RUNNING"

/-- Node's `net.Server.listen` on an already-listening server throws
`ERR_SERVER_ALREADY_LISTEN`. -/
def nodeServerListen (listening : Bool) : Except String Unit :=
  if listening then .error "ERR_SERVER_ALREADY_LISTEN" else .ok ()

/-- The Todo server's `start()`: sets the lifecycle flag and starts
listening. -/
def startApp (s : AppServerState) : Except String AppServerState := do
  let s := { s with alive := true }
  let _ ← nodeServerListen s.listening
  .ok { s with listening := true }

/-- The Todo server's `stop()`: clears the lifecycle flag, destroys every
tracked socket, awaits `httpServer.close` — rejecting when the callback
reports an error — then destroys the context. -/
def stopApp (s : AppServerState) : Except String AppServerState := do
  let s := { s with alive := false, sockets := 0 }
  let _ ← nodeServerClose s.listening
  .ok { s with listening := false, contextDestroyed := true }

end TodoApi

/-! ## Response observations used by the theorems -/

/-- Does a response body have the uniform error-envelope shape
`{ error: string, code: string, details?: unknown }`? -/
def isErrorEnvelope (r : Response) : Bool :=
  match r.body with
  | some (.obj fields) =>
    (match fields.lookup "error" with | some (.str _) => true | _ => false) &&
    (match fields.lookup "code" with | some (.str _) => true | _ => false)
  | _ => false

/-- The `code` field of a JSON response body, when present and a string. -/
def responseCode (r : Response) : Option String :=
  match r.body with
  | some b =>
    (match b.lookup "code" with | some (.str c) => some c | _ => none)
  | none => none

/-- A controller handler is envelope-disciplined when every failure
response it writes itself carries the error envelope.  All Notes API
handlers satisfy this. -/
def handlerEnvOk (controller : ControllerDefinition) : Prop :=
  ∀ context request params query response,
    controller.handler context request params query = .ok response →
    400 ≤ response.status → isErrorEnvelope response = true

/-- The pairwise distinctness invariant that every reachable todo store
satisfies: distinct ids and case-insensitively distinct titles. -/
def TodoApi.distinctTodos (todos : List TodoApi.Todo) : Prop :=
  todos.Pairwise fun a b => a.id ≠ b.id ∧ jsToLower a.title ≠ jsToLower b.title

/-! # Theorems -/

/-! ## Lifecycle (claims C6, C7, C8) -/

/-- Helper: the Notes API `stop()` is idempotent — after a successful
stop, every further stop resolves successfully and leaves the state
unchanged (`if (!httpServer) return`). -/
theorem notes_stop_idempotent (s s' : NotesLifecycle.ServerState)
    (h : NotesLifecycle.stop s = .ok s') :
    NotesLifecycle.stop s' = .ok s' := by
  unfold NotesLifecycle.stop at h ⊢
  by_cases hs : s.httpServer.isNone <;> simp [hs] at h <;> subst h <;> simp [hs]

/-- C6 (code bug): on the Todo example server, `stop()` is not
idempotent: `stop` calls `httpServer.close` unconditionally, and Node's
`close` invokes its callback with `ERR_SERVER_NOT_RUNNING` when the
server is no longer listening, so the second `stop()` after
`start(); stop()` rejects instead of resolving as a no-op.  (The guide's
lifecycle chapter and the Notes API servers guard this path with
`if (!httpServer) return` / `if (!httpServer.listening) return`.) -/
theorem todo_second_stop_rejects :
    TodoApi.startApp TodoApi.appInitial =
      .ok { alive := true, listening := true, sockets := 0, contextDestroyed := false } ∧
    TodoApi.stopApp { alive := true, listening := true, sockets := 0, contextDestroyed := false } =
      .ok { alive := false, listening := false, sockets := 0, contextDestroyed := true } ∧
    TodoApi.stopApp { alive := false, listening := false, sockets := 0, contextDestroyed := true } =
      .error "ERR_SERVER_NOT_RUNNING" := by
  refine ⟨rfl, rfl, rfl⟩

/-- C7: after `start()` the concretely bound port (the OS-assigned
ephemeral port when the configured port is 0, the configured port
otherwise) is stored back into `config.port`, and `stop()` followed by
`start()` — in particular `restart()` — rebinds the listener to exactly
that stored port, for any ephemeral port the OS would offer the second
time. -/
theorem start_stop_start_rebinds_stored_port
    (p os1 os2 : Nat) (hos : os1 ≠ 0) :
    ∃ s1 s2 s3 : NotesLifecycle.ServerState,
      NotesLifecycle.start os1 (NotesLifecycle.initialState p) = .ok s1 ∧
      s1.configPort = (if p = 0 then os1 else p) ∧
      s1.httpServer = some s1.configPort ∧
      NotesLifecycle.stop s1 = .ok s2 ∧
      s2.configPort = s1.configPort ∧
      NotesLifecycle.start os2 s2 = .ok s3 ∧
      NotesLifecycle.restart os2 s1 = .ok s3 ∧
      s3.httpServer = some s1.configPort ∧
      s3.configPort = s1.configPort := by
  by_cases hp : p = 0 <;>
    simp [NotesLifecycle.start, NotesLifecycle.stop, NotesLifecycle.restart,
          NotesLifecycle.initialState, hp, hos, bind, Except.bind]

/-- C7 witness: configured port 0, the OS assigns 49152 on the first
bind and would offer 50000 on the second; the restart rebinds 49152. -/
theorem start_stop_start_rebinds_stored_port_witness :
    (49152 : Nat) ≠ 0 ∧
    ∃ s1 s2 s3 : NotesLifecycle.ServerState,
      NotesLifecycle.start 49152 (NotesLifecycle.initialState 0) = .ok s1 ∧
      s1.configPort = (if (0 : Nat) = 0 then 49152 else 0) ∧
      s1.httpServer = some s1.configPort ∧
      NotesLifecycle.stop s1 = .ok s2 ∧
      s2.configPort = s1.configPort ∧
      NotesLifecycle.start 50000 s2 = .ok s3 ∧
      NotesLifecycle.restart 50000 s1 = .ok s3 ∧
      s3.httpServer = some s1.configPort ∧
      s3.configPort = s1.configPort :=
  ⟨by decide, start_stop_start_rebinds_stored_port 0 49152 50000 (by decide)⟩

/-- C8 (counterexample): calling `start()` on an already-started server
does not fail — it resolves successfully and leaves the state (and the
single bound listener) unchanged, because `start` begins with
`if (httpServer) { return; }`. -/
theorem start_when_running_succeeds_silently :
    NotesLifecycle.start 4002
        { httpServer := some 4001, contextLive := true, configPort := 4001 } =
      .ok { httpServer := some 4001, contextLive := true, configPort := 4001 } := by
  rfl

/-- C8 (amended): `start()` invoked while a listener exists is a silent
no-op — it resolves without error, reports nothing to the caller, and
binds no second listener (the state is returned unchanged). -/
theorem start_when_running_is_noop
    (s : NotesLifecycle.ServerState) (os : Nat)
    (h : s.httpServer.isSome) :
    NotesLifecycle.start os s = .ok s := by
  unfold NotesLifecycle.start
  simp [h]

/-- C8 amended witness: starting the concrete running server from the
counterexample resolves to the unchanged state. -/
theorem start_when_running_is_noop_witness :
    (Option.isSome (some 4001) = true) ∧
    NotesLifecycle.start 9999
        { httpServer := some 4001, contextLive := true, configPort := 4001 } =
      .ok { httpServer := some 4001, contextLive := true, configPort := 4001 } :=
  ⟨rfl, start_when_running_is_noop _ 9999 rfl⟩

/-! ## Route scanning (claims C2, C4) -/

/-- Helper: a route found by the scan is a member of the table. -/
theorem findRoute_mem {routes : List Route} {method path : String}
    {route : Route} {groups : List (String × String)}
    (h : findRoute routes method path = some (route, groups)) :
    route ∈ routes := by
  induction routes with
  | nil => simp [findRoute] at h
  | cons head rest ih =>
    unfold findRoute at h
    cases htry : tryRoute head method path with
    | some g => simp [htry] at h; simp [h.1]
    | none => simp [htry] at h; exact List.mem_cons_of_mem _ (ih h)

/-- Helper: the scan returns the first matching route — everything
declared before it fails to match. -/
theorem findRoute_first {routes : List Route} {method path : String}
    {route : Route} {groups : List (String × String)}
    (h : findRoute routes method path = some (route, groups)) :
    ∃ pre post, routes = pre ++ route :: post ∧
      (∀ r ∈ pre, tryRoute r method path = none) ∧
      tryRoute route method path = some groups := by
  induction routes with
  | nil => simp [findRoute] at h
  | cons head rest ih =>
    unfold findRoute at h
    cases htry : tryRoute head method path with
    | some g =>
      simp [htry] at h
      exact ⟨[], rest, by simp [h.1], by simp, by rw [← h.1, htry, h.2]⟩
    | none =>
      simp [htry] at h
      obtain ⟨pre, post, heq, hpre, hroute⟩ := ih h
      exact ⟨head :: pre, post, by simp [heq], by
        intro r hr
        rcases List.mem_cons.mp hr with hr | hr
        · simpa [hr] using htry
        · exact hpre r hr, hroute⟩

/-- Helper: an exhausted scan means no route in the table matches. -/
theorem findRoute_none {routes : List Route} {method path : String}
    (h : findRoute routes method path = none) :
    ∀ r ∈ routes, tryRoute r method path = none := by
  induction routes with
  | nil => simp
  | cons head rest ih =>
    unfold findRoute at h
    cases htry : tryRoute head method path with
    | some g => simp [htry] at h
    | none =>
      simp [htry] at h
      intro r hr
      rcases List.mem_cons.mp hr with hr | hr
      · simpa [hr] using htry
      · exact ih h r hr

/-- C2: the dispatcher scans the route table in declaration order and
settles on exactly the first route whose method equals the request method
and whose pattern matches the path: (1) a found route is preceded only by
non-matching entries; (2) an exhausted scan means nothing matched —
including when the path matches only routes of a different method, since
`tryRoute` requires method equality; (3) a request matching no route is
answered 404 with no handler invoked; (4) a matched request (passing
validation) runs exactly the found route's handler. -/
theorem dispatch_first_match_or_404 :
    (∀ (routes : List Route) (method path : String) (route : Route)
       (groups : List (String × String)),
       findRoute routes method path = some (route, groups) →
       ∃ pre post, routes = pre ++ route :: post ∧
         (∀ r ∈ pre, tryRoute r method path = none) ∧
         tryRoute route method path = some groups)
    ∧ (∀ (routes : List Route) (method path : String),
       findRoute routes method path = none →
       ∀ r ∈ routes, tryRoute r method path = none)
    ∧ (∀ (routes : List Route) (context : Option AppContext) (request : Request)
         (m u : String),
       request.method = some m → m ≠ "" → request.url = some u → u ≠ "" →
       findRoute routes m (pathOf u) = none →
       handleRequest routes context request =
         { response := bare 404, handlerInvoked := false })
    ∧ (∀ (routes : List Route) (c : AppContext) (request : Request) (m u : String)
         (route : Route) (groups : List (String × String)) (params query : Json),
       request.method = some m → m ≠ "" → request.url = some u → u ≠ "" →
       findRoute routes m (pathOf u) = some (route, groups) →
       parseParams route.controller groups = .ok params →
       parseQuery route.controller (queryOf u) = .ok query →
       handleRequest routes (some c) request =
         { response :=
             match route.controller.handler c request params query with
             | .error e => translateError e
             | .ok response => response,
           handlerInvoked := true }) := by
  refine ⟨fun _ _ _ _ _ h => findRoute_first h,
          fun _ _ _ h => findRoute_none h, ?_, ?_⟩
  · intro routes context request m u hm hmne hu hune hfind
    unfold handleRequest
    simp [hm, hu, hmne, hune, hfind]
  · intro routes c request m u route groups params query hm hmne hu hune hfind hp hq
    unfold handleRequest
    simp [hm, hu, hmne, hune, hfind, hp, hq]
    cases route.controller.handler c request params query <;> rfl

/-- C2 witness: on the Notes API table, `GET /health` is answered by the
first route with nothing before it; `PUT /health` (a path that matches
only a route of a different method) exhausts the table and is answered
404 with no handler run; and the matched `GET /health` dispatch runs the
health handler. -/
theorem dispatch_first_match_or_404_witness :
    (∃ pre post, notesRoutes =
        pre ++ { method := "GET", segs := compilePath "/health",
                 controller := healthController : Route } :: post ∧
      (∀ r ∈ pre, tryRoute r "GET" "/health" = none) ∧
      tryRoute { method := "GET", segs := compilePath "/health",
                 controller := healthController : Route } "GET" "/health" = some []) ∧
    handleRequest notesRoutes (some { notes := [] })
        { method := some "PUT", url := some "/health" } =
      { response := bare 404, handlerInvoked := false } ∧
    handleRequest notesRoutes (some { notes := [] })
        { method := some "GET", url := some "/health" } =
      { response := sendJson 200 (.obj [("status", .str "healthy")]),
        handlerInvoked := true } :=
  ⟨dispatch_first_match_or_404.1 notesRoutes "GET" "/health" _ _ rfl,
   dispatch_first_match_or_404.2.2.1 notesRoutes _ _ "PUT" "/health"
     rfl (by decide) rfl (by decide) rfl,
   dispatch_first_match_or_404.2.2.2 notesRoutes { notes := [] } _ "GET" "/health"
     { method := "GET", segs := compilePath "/health", controller := healthController }
     [] (.obj []) (.obj []) rfl (by decide) rfl (by decide) rfl rfl rfl⟩

/-- C4 (counterexample): with the context not yet initialized, a request
whose path matches no route is answered 404, not 503 — the dispatcher
matches the route table before consulting the context. -/
theorem unmatched_request_before_ready_gets_404 :
    (handleRequest notesRoutes none
        { method := some "GET", url := some "/missing" }).response.status = 404 ∧
    (404 : Nat) ≠ 503 :=
  ⟨rfl, by decide⟩

/-- C4 (amended): a request that matches a registered route and arrives
before the `AppContext` has been built is answered a bare 503 and neither
validation nor the handler runs (and the dispatcher never constructs the
context — it only reads the closure variable); a request matching no
route is answered 404 even before the context is ready. -/
theorem not_ready_matched_gets_503 :
    (∀ (routes : List Route) (request : Request) (m u : String)
       (route : Route) (groups : List (String × String)),
       request.method = some m → m ≠ "" → request.url = some u → u ≠ "" →
       findRoute routes m (pathOf u) = some (route, groups) →
       handleRequest routes none request =
         { response := bare 503, handlerInvoked := false })
    ∧ (∀ (routes : List Route) (request : Request) (m u : String),
       request.method = some m → m ≠ "" → request.url = some u → u ≠ "" →
       findRoute routes m (pathOf u) = none →
       handleRequest routes none request =
         { response := bare 404, handlerInvoked := false }) := by
  constructor
  · intro routes request m u route groups hm hmne hu hune hfind
    unfold handleRequest
    simp [hm, hu, hmne, hune, hfind]
  · intro routes request m u hm hmne hu hune hfind
    unfold handleRequest
    simp [hm, hu, hmne, hune, hfind]

/-- C4 amended witness: `GET /health` before the context is ready is
answered a bare 503; `GET /missing` is answered a bare 404. -/
theorem not_ready_matched_gets_503_witness :
    handleRequest notesRoutes none { method := some "GET", url := some "/health" } =
      { response := bare 503, handlerInvoked := false } ∧
    handleRequest notesRoutes none { method := some "GET", url := some "/missing" } =
      { response := bare 404, handlerInvoked := false } :=
  ⟨not_ready_matched_gets_503.1 notesRoutes _ "GET" "/health"
      { method := "GET", segs := compilePath "/health", controller := healthController }
      [] rfl (by decide) rfl (by decide) rfl,
   not_ready_matched_gets_503.2 notesRoutes _ "GET" "/missing"
      rfl (by decide) rfl (by decide) rfl⟩

/-! ## Dispatch plumbing helpers shared by the validation claims -/

/-- Helper: a matched request whose params and query validate runs the
found route's handler, and the outcome is the handler's own response or
the translation of what it threw. -/
theorem handleRequest_matched_run
    (routes : List Route) (c : AppContext) (request : Request) (m u : String)
    (route : Route) (groups : List (String × String)) (params query : Json)
    (hm : request.method = some m) (hmne : m ≠ "")
    (hu : request.url = some u) (hune : u ≠ "")
    (hfind : findRoute routes m (pathOf u) = some (route, groups))
    (hp : parseParams route.controller groups = .ok params)
    (hq : parseQuery route.controller (queryOf u) = .ok query) :
    handleRequest routes (some c) request =
      { response :=
          match route.controller.handler c request params query with
          | .error e => translateError e
          | .ok response => response,
        handlerInvoked := true } := by
  unfold handleRequest
  simp [hm, hu, hmne, hune, hfind, hp, hq]
  cases route.controller.handler c request params query <;> rfl

/-- Helper: a params-validation failure short-circuits the handler and is
translated. -/
theorem handleRequest_params_error
    (routes : List Route) (c : AppContext) (request : Request) (m u : String)
    (route : Route) (groups : List (String × String)) (e : Err)
    (hm : request.method = some m) (hmne : m ≠ "")
    (hu : request.url = some u) (hune : u ≠ "")
    (hfind : findRoute routes m (pathOf u) = some (route, groups))
    (hp : parseParams route.controller groups = .error e) :
    handleRequest routes (some c) request =
      { response := translateError e, handlerInvoked := false } := by
  unfold handleRequest
  simp [hm, hu, hmne, hune, hfind, hp]

/-- Helper: a query-validation failure (after params pass) short-circuits
the handler and is translated. -/
theorem handleRequest_query_error
    (routes : List Route) (c : AppContext) (request : Request) (m u : String)
    (route : Route) (groups : List (String × String)) (params : Json) (e : Err)
    (hm : request.method = some m) (hmne : m ≠ "")
    (hu : request.url = some u) (hune : u ≠ "")
    (hfind : findRoute routes m (pathOf u) = some (route, groups))
    (hp : parseParams route.controller groups = .ok params)
    (hq : parseQuery route.controller (queryOf u) = .error e) :
    handleRequest routes (some c) request =
      { response := translateError e, handlerInvoked := false } := by
  unfold handleRequest
  simp [hm, hu, hmne, hune, hfind, hp, hq]

/-- Helper: every params-validation failure is the `ValidationError`
thrown by `parseParams`. -/
theorem parseParams_error_shape (controller : ControllerDefinition)
    (groups : List (String × String)) (e : Err)
    (h : parseParams controller groups = .error e) :
    ∃ details, e = .validation "Invalid request parameters" details := by
  unfold parseParams at h
  cases hs : controller.schema.params with
  | none => simp [hs] at h
  | some paramsSchema =>
    simp [hs] at h
    cases hv : safeParse paramsSchema (groupsToJson groups) with
    | error details => simp [hv] at h; exact ⟨details, h.symm⟩
    | ok data => simp [hv] at h

/-- Helper: every query-validation failure is the `ValidationError`
thrown by `parseQuery`. -/
theorem parseQuery_error_shape (controller : ControllerDefinition)
    (query : List (String × String)) (e : Err)
    (h : parseQuery controller query = .error e) :
    ∃ details, e = .validation "Invalid query parameters" details := by
  unfold parseQuery at h
  cases hs : controller.schema.query with
  | none => simp [hs] at h
  | some querySchema =>
    simp [hs] at h
    cases hv : safeParse querySchema (groupsToJson query) with
    | error details => simp [hv] at h; exact ⟨details, h.symm⟩
    | ok data => simp [hv] at h

/-- Helper: every failure of `getBodyFromRequest` is a `ValidationError`
(each of its throw sites constructs one). -/
theorem getBodyFromRequest_error_shape (request : Request)
    (body : Option BodyDef) (e : Err)
    (h : getBodyFromRequest request body = .error e) :
    ∃ message details, e = .validation message details := by
  unfold getBodyFromRequest at h
  cases body with
  | none => simp at h; exact ⟨_, _, h.symm⟩
  | some bodyDefinition =>
    simp at h
    by_cases hct : contentTypeAccepts request bodyDefinition
    · simp [hct] at h
      by_cases hlen : request.rawBody.length = 0
      · simp [hlen] at h; exact ⟨_, _, h.symm⟩
      · simp [hlen] at h
        cases hj : parseJson request.rawBody with
        | none => simp [hj] at h; exact ⟨_, _, h.symm⟩
        | some parsed =>
          simp [hj] at h
          cases hv : safeParse bodyDefinition.schema parsed with
          | error details => simp [hv] at h; exact ⟨_, _, h.symm⟩
          | ok data => simp [hv] at h
    · simp [hct] at h; exact ⟨_, _, h.symm⟩

/-! ## Validation failures (claim C1) -/

/-- C1 (counterexample): a `POST /notes` request whose body violates the
body schema (an empty JSON object is missing `title` and `content`) is
answered 400 with code `VALIDATION_FAILED` — but the matched route's
handler IS invoked, because body validation runs inside the handler
(`getBodyFromRequest` is called by the controller, not by the
dispatcher). -/
theorem body_rejection_invokes_handler :
    (handleRequest notesRoutes (some { notes := [] })
        { method := some "POST", url := some "/notes",
          contentType := some "application/json",
          rawBody := "\x7b\x7d" }).handlerInvoked = true ∧
    (handleRequest notesRoutes (some { notes := [] })
        { method := some "POST", url := some "/notes",
          contentType := some "application/json",
          rawBody := "\x7b\x7d" }).response.status = 400 ∧
    responseCode (handleRequest notesRoutes (some { notes := [] })
        { method := some "POST", url := some "/notes",
          contentType := some "application/json",
          rawBody := "\x7b\x7d" }).response = some "VALIDATION_FAILED" :=
  ⟨rfl, rfl, rfl⟩

/-- C1 (amended): every schema rejection produces a 400 response whose
envelope carries code `VALIDATION_FAILED` and the structured detail.
Params and query failures are raised by the dispatcher before the handler
runs, so the handler is never invoked; body failures are raised by
`getBodyFromRequest` inside the handler, so the handler is invoked but
aborts with the same translated 400 response.  Parts: (1) params
failures are `ValidationError`s; (2) a params failure dispatches to the
400 envelope with no handler invocation; (3) query failures are
`ValidationError`s; (4) a query failure dispatches to the 400 envelope
with no handler invocation; (5) body failures are `ValidationError`s;
(6) on the Notes table, a `POST /notes` whose body reader throws is
answered with the translated failure and the handler marked invoked. -/
theorem schema_rejection_yields_validation_failed :
    (∀ (controller : ControllerDefinition) (groups : List (String × String)) (e : Err),
       parseParams controller groups = .error e →
       ∃ details, e = .validation "Invalid request parameters" details)
    ∧ (∀ (routes : List Route) (c : AppContext) (request : Request) (m u : String)
         (route : Route) (groups : List (String × String)) (message : String)
         (details : Json),
       request.method = some m → m ≠ "" → request.url = some u → u ≠ "" →
       findRoute routes m (pathOf u) = some (route, groups) →
       parseParams route.controller groups = .error (.validation message details) →
       handleRequest routes (some c) request =
         { response := sendJson 400 (.obj [("error", .str message),
                                           ("code", .str "VALIDATION_FAILED"),
                                           ("details", details)]),
           handlerInvoked := false })
    ∧ (∀ (controller : ControllerDefinition) (query : List (String × String)) (e : Err),
       parseQuery controller query = .error e →
       ∃ details, e = .validation "Invalid query parameters" details)
    ∧ (∀ (routes : List Route) (c : AppContext) (request : Request) (m u : String)
         (route : Route) (groups : List (String × String)) (params : Json)
         (message : String) (details : Json),
       request.method = some m → m ≠ "" → request.url = some u → u ≠ "" →
       findRoute routes m (pathOf u) = some (route, groups) →
       parseParams route.controller groups = .ok params →
       parseQuery route.controller (queryOf u) = .error (.validation message details) →
       handleRequest routes (some c) request =
         { response := sendJson 400 (.obj [("error", .str message),
                                           ("code", .str "VALIDATION_FAILED"),
                                           ("details", details)]),
           handlerInvoked := false })
    ∧ (∀ (request : Request) (body : Option BodyDef) (e : Err),
       getBodyFromRequest request body = .error e →
       ∃ message details, e = .validation message details)
    ∧ (∀ (c : AppContext) (contentType : Option String) (rawBody : String) (e : Err),
       getBodyFromRequest
           { method := some "POST", url := some "/notes",
             contentType := contentType, rawBody := rawBody }
           (some createNoteBody) = .error e →
       handleRequest notesRoutes (some c)
           { method := some "POST", url := some "/notes",
             contentType := contentType, rawBody := rawBody } =
         { response := translateError e, handlerInvoked := true }) := by
  refine ⟨parseParams_error_shape, ?_, parseQuery_error_shape, ?_,
          getBodyFromRequest_error_shape, ?_⟩
  · intro routes c request m u route groups message details hm hmne hu hune hfind hp
    rw [handleRequest_params_error routes c request m u route groups _
          hm hmne hu hune hfind hp]
    rfl
  · intro routes c request m u route groups params message details hm hmne hu hune
      hfind hp hq
    rw [handleRequest_query_error routes c request m u route groups params _
          hm hmne hu hune hfind hp hq]
    rfl
  · intro c contentType rawBody e herr
    rw [handleRequest_matched_run notesRoutes c _ "POST" "/notes"
          { method := "POST", segs := compilePath "/notes",
            controller := createNoteController }
          [] (.obj []) (.obj []) rfl (by decide) rfl (by decide) rfl rfl rfl]
    simp [createNoteController, herr, bind, Except.bind]

/-- C1 amended witness: concrete instantiations of every part — a
non-UUID `noteId` rejected before the handler (dispatch shown for part
(2)), a too-short `limit` query value on a synthetic table for part (4),
and a malformed `POST /notes` body for part (6). -/
theorem schema_rejection_yields_validation_failed_witness :
    (∃ details, Err.validation "Invalid request parameters"
        (.obj [("noteId", .str "Invalid input")]) =
        .validation "Invalid request parameters" details) ∧
    handleRequest notesRoutes (some { notes := [] })
        { method := some "GET", url := some "/notes/not-a-uuid" } =
      { response := sendJson 400
          (.obj [("error", .str "Invalid request parameters"),
                 ("code", .str "VALIDATION_FAILED"),
                 ("details", .obj [("noteId", .str "Invalid input")])]),
        handlerInvoked := false } ∧
    handleRequest
        [{ method := "GET", segs := compilePath "/search",
           controller :=
             { schema := { method := "GET", path := "/search",
                           query := some [{ name := "limit", check := .vstr 1 none }] },
               handler := fun _ _ _ _ => .ok (bare 204) } }]
        (some { notes := [] })
        { method := some "GET", url := some "/search?limit=" } =
      { response := sendJson 400
          (.obj [("error", .str "Invalid query parameters"),
                 ("code", .str "VALIDATION_FAILED"),
                 ("details", .obj [("limit", .str "Invalid input")])]),
        handlerInvoked := false } ∧
    handleRequest notesRoutes (some { notes := [] })
        { method := some "POST", url := some "/notes",
          contentType := some "application/json", rawBody := "not json" } =
      { response := translateError (.validation "Invalid JSON payload" .null),
        handlerInvoked := true } :=
  ⟨⟨.obj [("noteId", .str "Invalid input")], rfl⟩,
   schema_rejection_yields_validation_failed.2.1 notesRoutes { notes := [] } _
     "GET" "/notes/not-a-uuid"
     { method := "GET", segs := compilePath "/notes/\x7bnoteId\x7d",
       controller := getNoteController }
     [("noteId", "not-a-uuid")] "Invalid request parameters"
     (.obj [("noteId", .str "Invalid input")])
     rfl (by decide) rfl (by decide) rfl rfl,
   schema_rejection_yields_validation_failed.2.2.2.1
     [{ method := "GET", segs := compilePath "/search",
        controller :=
          { schema := { method := "GET", path := "/search",
                        query := some [{ name := "limit", check := .vstr 1 none }] },
            handler := fun _ _ _ _ => .ok (bare 204) } }]
     { notes := [] } _ "GET" "/search?limit="
     { method := "GET", segs := compilePath "/search",
       controller :=
         { schema := { method := "GET", path := "/search",
                       query := some [{ name := "limit", check := .vstr 1 none }] },
           handler := fun _ _ _ _ => .ok (bare 204) } }
     [] (.obj []) "Invalid query parameters" (.obj [("limit", .str "Invalid input")])
     rfl (by decide) rfl (by decide) rfl rfl rfl,
   schema_rejection_yields_validation_failed.2.2.2.2.2 { notes := [] }
     (some "application/json") "not json" (.validation "Invalid JSON payload" .null)
     rfl⟩

/-! ## Error envelope discipline (claim C3) -/

/-- Helper: every translated thrown error carries the uniform envelope. -/
theorem translateError_envelope (e : Err) :
    isErrorEnvelope (translateError e) = true := by
  cases e <;> rfl

/-- Helper: a request with a falsy method or URL is answered a bare 400
and no handler runs. -/
theorem handleRequest_bad_request (routes : List Route)
    (context : Option AppContext) (request : Request)
    (h : request.method.getD "" = "" ∨ request.url.getD "" = "") :
    handleRequest routes context request =
      { response := bare 400, handlerInvoked := false } := by
  unfold handleRequest
  simp [h]

/-- Helper: an exhausted route scan is answered a bare 404 regardless of
context readiness, and no handler runs. -/
theorem handleRequest_no_match (routes : List Route)
    (context : Option AppContext) (request : Request) (m u : String)
    (hm : request.method = some m) (hmne : m ≠ "")
    (hu : request.url = some u) (hune : u ≠ "")
    (hfind : findRoute routes m (pathOf u) = none) :
    handleRequest routes context request =
      { response := bare 404, handlerInvoked := false } := by
  unfold handleRequest
  simp [hm, hu, hmne, hune, hfind]

/-- Helper: a matched request dispatched before the context exists is
answered a bare 503 and no handler runs. -/
theorem handleRequest_not_ready (routes : List Route) (request : Request)
    (m u : String) (route : Route) (groups : List (String × String))
    (hm : request.method = some m) (hmne : m ≠ "")
    (hu : request.url = some u) (hune : u ≠ "")
    (hfind : findRoute routes m (pathOf u) = some (route, groups)) :
    handleRequest routes none request =
      { response := bare 503, handlerInvoked := false } := by
  unfold handleRequest
  simp [hm, hu, hmne, hune, hfind]

/-- Helper: over any route table whose handlers are envelope-disciplined,
every failing response (status at least 400) either carries the uniform
JSON error envelope or is one of the dispatcher's bare 400/404/503
responses with an empty body. -/
theorem handleRequest_failure_shape (routes : List Route)
    (context : Option AppContext) (request : Request)
    (hh : ∀ r ∈ routes, handlerEnvOk r.controller)
    (hstatus : 400 ≤ (handleRequest routes context request).response.status) :
    isErrorEnvelope (handleRequest routes context request).response = true ∨
    ((handleRequest routes context request).response.body = none ∧
     ((handleRequest routes context request).response.status = 400 ∨
      (handleRequest routes context request).response.status = 404 ∨
      (handleRequest routes context request).response.status = 503)) := by
  by_cases hbad : request.method.getD "" = "" ∨ request.url.getD "" = ""
  · rw [handleRequest_bad_request routes context request hbad]
    exact Or.inr ⟨rfl, Or.inl rfl⟩
  · push_neg at hbad
    obtain ⟨hm0, hu0⟩ := hbad
    have hm : request.method = some (request.method.getD "") := by
      cases hmm : request.method with
      | none => exact absurd (by simp [hmm]) hm0
      | some v => simp [hmm]
    have hu : request.url = some (request.url.getD "") := by
      cases huu : request.url with
      | none => exact absurd (by simp [huu]) hu0
      | some v => simp [huu]
    cases hfind : findRoute routes (request.method.getD "")
        (pathOf (request.url.getD "")) with
    | none =>
      rw [handleRequest_no_match routes context request _ _ hm hm0 hu hu0 hfind]
      exact Or.inr ⟨rfl, Or.inr (Or.inl rfl)⟩
    | some found =>
      obtain ⟨route, groups⟩ := found
      cases context with
      | none =>
        rw [handleRequest_not_ready routes request _ _ route groups
              hm hm0 hu hu0 hfind]
        exact Or.inr ⟨rfl, Or.inr (Or.inr rfl)⟩
      | some c =>
        cases hp : parseParams route.controller groups with
        | error e =>
          rw [handleRequest_params_error routes c request _ _ route groups e
                hm hm0 hu hu0 hfind hp]
          exact Or.inl (translateError_envelope e)
        | ok params =>
          cases hq : parseQuery route.controller (queryOf (request.url.getD "")) with
          | error e =>
            rw [handleRequest_query_error routes c request _ _ route groups params e
                  hm hm0 hu hu0 hfind hp hq]
            exact Or.inl (translateError_envelope e)
          | ok query =>
            rw [handleRequest_matched_run routes c request _ _ route groups
                  params query hm hm0 hu hu0 hfind hp hq] at hstatus ⊢
            cases hrun : route.controller.handler c request params query with
            | error e =>
              simp only [hrun]
              exact Or.inl (translateError_envelope e)
            | ok response =>
              simp only [hrun] at hstatus ⊢
              exact Or.inl (hh route (findRoute_mem hfind) c request params query
                response hrun hstatus)

/-- Helper: each Notes API handler is envelope-disciplined — the only
failure response a handler writes itself is the get-note 404, which
carries the envelope; every other handler-written response is a
success. -/
theorem notesRoutes_handlers_env_ok :
    ∀ r ∈ notesRoutes, handlerEnvOk r.controller := by
  intro r hr
  simp [notesRoutes, buildRoutes, documentedControllers, List.mem_cons] at hr
  rcases hr with h | h | h | h | h <;> subst h <;>
    intro c request params query response heq hstatus
  · simp [healthController] at heq
    rw [← heq] at hstatus
    norm_num [sendJson] at hstatus
  · simp [listNotesController] at heq
    rw [← heq] at hstatus
    norm_num [sendJson] at hstatus
  · simp [createNoteController, bind, Except.bind] at heq
    cases hb : getBodyFromRequest request (some createNoteBody) with
    | error e => rw [hb] at heq; simp at heq
    | ok body =>
      rw [hb] at heq
      simp at heq
      rw [← heq] at hstatus
      norm_num [sendJson] at hstatus
  · simp [getNoteController] at heq
    cases hfindNote : c.notes.find? (fun n => n.id = params.getStr "noteId") with
    | none =>
      rw [hfindNote] at heq
      simp at heq
      rw [← heq]
      rfl
    | some n =>
      rw [hfindNote] at heq
      simp at heq
      rw [← heq] at hstatus
      norm_num [sendJson] at hstatus
  · simp [openApiController] at heq
    rw [← heq] at hstatus
    norm_num [sendJson] at hstatus

/-- C3 (amended): on the Notes API, every request produces exactly one
terminating response (`handleRequest` is a total function into a single
`Response`), and every failing response (status 400 or above) either
carries the uniform JSON error envelope
`{ error: string, code: string, details?: unknown }` — as all
validation, application-error and unexpected-error translations and the
handler-written get-note 404 do — or is one of the dispatcher's bare
paths with an empty body: 400 for a missing method/URL, 404 for an
unmatched route, 503 when the context is not ready. -/
theorem notes_failure_response_shape (context : Option AppContext)
    (request : Request)
    (hstatus : 400 ≤ (handleRequest notesRoutes context request).response.status) :
    isErrorEnvelope (handleRequest notesRoutes context request).response = true ∨
    ((handleRequest notesRoutes context request).response.body = none ∧
     ((handleRequest notesRoutes context request).response.status = 400 ∨
      (handleRequest notesRoutes context request).response.status = 404 ∨
      (handleRequest notesRoutes context request).response.status = 503)) :=
  handleRequest_failure_shape notesRoutes context request
    notesRoutes_handlers_env_ok hstatus

/-- C3 witness: the unmatched `GET /missing` — a failing request — falls
in the bare-status disjunct. -/
theorem notes_failure_response_shape_witness :
    400 ≤ (handleRequest notesRoutes (some { notes := [] })
      { method := some "GET", url := some "/missing" }).response.status ∧
    (isErrorEnvelope (handleRequest notesRoutes (some { notes := [] })
        { method := some "GET", url := some "/missing" }).response = true ∨
     ((handleRequest notesRoutes (some { notes := [] })
        { method := some "GET", url := some "/missing" }).response.body = none ∧
      ((handleRequest notesRoutes (some { notes := [] })
        { method := some "GET", url := some "/missing" }).response.status = 400 ∨
       (handleRequest notesRoutes (some { notes := [] })
        { method := some "GET", url := some "/missing" }).response.status = 404 ∨
       (handleRequest notesRoutes (some { notes := [] })
        { method := some "GET", url := some "/missing" }).response.status = 503))) :=
  ⟨by decide, notes_failure_response_shape (some { notes := [] })
    { method := some "GET", url := some "/missing" } (by decide)⟩

/-- C3 (counterexample): a request matching no route — a failing request
— is answered 404 by `writeHead(404); end()` with an empty body, not
with a JSON error envelope. -/
theorem no_match_404_has_empty_body :
    (handleRequest notesRoutes (some { notes := [] })
      { method := some "GET", url := some "/missing" }).response.status = 404 ∧
    (handleRequest notesRoutes (some { notes := [] })
      { method := some "GET", url := some "/missing" }).response.body = none :=
  ⟨rfl, rfl⟩

/-! ## Body validation order (claim C9) -/

/-- C9 (counterexample): with a matching content-type and an empty raw
body — which `JSON.parse` rejects — the failure raised is the
body-required failure, not the malformed-body failure the claimed
three-step order prescribes: an extra emptiness check sits between the
content-type check and JSON parsing. -/
theorem empty_body_not_malformed_failure :
    contentTypeAccepts
        { method := some "POST", url := some "/notes",
          contentType := some "application/json", rawBody := "" }
        createNoteBody = true ∧
    parseJson "" = none ∧
    getBodyFromRequest
        { method := some "POST", url := some "/notes",
          contentType := some "application/json", rawBody := "" }
        (some createNoteBody) =
      .error (.validation "Request body is required" .null) ∧
    "Request body is required" ≠ "Invalid JSON payload" :=
  ⟨rfl, rfl, rfl, by decide⟩

/-- C9 (amended): body validation checks run in the order content-type →
body non-empty → JSON parse → schema, each failure short-circuiting every
later check and raising a `ValidationError`: (a) a content-type mismatch
fails with the unsupported-content-type failure regardless of the body;
(b) an empty raw body (content-type accepted) fails with the
body-required failure before JSON parsing; (c) a non-empty body that
`JSON.parse` rejects fails with the malformed-body failure before the
schema is consulted; (d) a parsed body the schema rejects fails with
field-level detail; (e) otherwise the typed body is returned. -/
theorem body_validation_check_order :
    (∀ (request : Request) (bodyDefinition : BodyDef),
       contentTypeAccepts request bodyDefinition = false →
       getBodyFromRequest request (some bodyDefinition) =
         .error (.validation
           ("Unsupported content type. Expected " ++ bodyDefinition.contentType) .null))
    ∧ (∀ (request : Request) (bodyDefinition : BodyDef),
       contentTypeAccepts request bodyDefinition = true →
       request.rawBody.length = 0 →
       getBodyFromRequest request (some bodyDefinition) =
         .error (.validation "Request body is required" .null))
    ∧ (∀ (request : Request) (bodyDefinition : BodyDef),
       contentTypeAccepts request bodyDefinition = true →
       request.rawBody.length ≠ 0 →
       parseJson request.rawBody = none →
       getBodyFromRequest request (some bodyDefinition) =
         .error (.validation "Invalid JSON payload" .null))
    ∧ (∀ (request : Request) (bodyDefinition : BodyDef) (parsed details : Json),
       contentTypeAccepts request bodyDefinition = true →
       request.rawBody.length ≠ 0 →
       parseJson request.rawBody = some parsed →
       safeParse bodyDefinition.schema parsed = .error details →
       getBodyFromRequest request (some bodyDefinition) =
         .error (.validation "Invalid request body" details))
    ∧ (∀ (request : Request) (bodyDefinition : BodyDef) (parsed data : Json),
       contentTypeAccepts request bodyDefinition = true →
       request.rawBody.length ≠ 0 →
       parseJson request.rawBody = some parsed →
       safeParse bodyDefinition.schema parsed = .ok data →
       getBodyFromRequest request (some bodyDefinition) = .ok data) := by
  refine ⟨?_, ?_, ?_, ?_, ?_⟩ <;> intro request bodyDefinition
  · intro hct
    unfold getBodyFromRequest
    simp [hct]
  · intro hct hlen
    unfold getBodyFromRequest
    simp [hct, hlen]
  · intro hct hlen hjson
    unfold getBodyFromRequest
    simp [hct, hlen, hjson]
  · intro parsed details hct hlen hjson hschema
    unfold getBodyFromRequest
    simp [hct, hlen, hjson, hschema]
  · intro parsed data hct hlen hjson hschema
    unfold getBodyFromRequest
    simp [hct, hlen, hjson, hschema]

/-- C9 amended witness: the five branches at concrete inputs against the
`POST /notes` body definition — wrong content type, empty body, malformed
body, schema-rejected body, and an accepted body. -/
theorem body_validation_check_order_witness :
    getBodyFromRequest
        { method := some "POST", url := some "/notes",
          contentType := some "text/plain", rawBody := "ignored" }
        (some createNoteBody) =
      .error (.validation "Unsupported content type. Expected application/json" .null) ∧
    getBodyFromRequest
        { method := some "POST", url := some "/notes",
          contentType := some "application/json", rawBody := "" }
        (some createNoteBody) =
      .error (.validation "Request body is required" .null) ∧
    getBodyFromRequest
        { method := some "POST", url := some "/notes",
          contentType := some "application/json", rawBody := "not json" }
        (some createNoteBody) =
      .error (.validation "Invalid JSON payload" .null) ∧
    getBodyFromRequest
        { method := some "POST", url := some "/notes",
          contentType := some "application/json", rawBody := "\x7b\"title\":\"a\"\x7d" }
        (some createNoteBody) =
      .error (.validation "Invalid request body"
        (.obj [("content", .str "Required")])) ∧
    getBodyFromRequest
        { method := some "POST", url := some "/notes",
          contentType := some "application/json",
          rawBody := "\x7b\"title\":\"a\",\"content\":\"b\"\x7d" }
        (some createNoteBody) =
      .ok (.obj [("title", .str "a"), ("content", .str "b")]) :=
  ⟨body_validation_check_order.1 _ createNoteBody rfl,
   body_validation_check_order.2.1 _ createNoteBody rfl rfl,
   body_validation_check_order.2.2.1 _ createNoteBody rfl (by decide) rfl,
   body_validation_check_order.2.2.2.1 _ createNoteBody (.obj [("title", .str "a")])
     (.obj [("content", .str "Required")]) rfl (by decide) rfl rfl,
   body_validation_check_order.2.2.2.2 _ createNoteBody
     (.obj [("title", .str "a"), ("content", .str "b")])
     (.obj [("title", .str "a"), ("content", .str "b")]) rfl (by decide) rfl rfl⟩

/-! ## Case-insensitive todo title uniqueness (claim C10) -/

/-- C10: title uniqueness in the Todo model is enforced
case-insensitively. (a) `createTodo` throws `ConflictError` exactly when
some stored todo's lower-cased title equals the lower-cased input title;
(b) on any store with pairwise-distinct ids and case-insensitively
distinct titles (which every store reachable through the validated API
satisfies), `updateTodo` with a validated (non-empty) new title throws
`ConflictError` exactly when some OTHER todo's lower-cased title equals
the lower-cased new title — renaming a todo to a case variant of its own
title never conflicts; (c) the thrown `ConflictError` is translated to a
409 response with code `CONFLICT`. -/
theorem todo_title_uniqueness_case_insensitive :
    (∀ (context : TodoApi.Context) (title newId now : String),
       context.alive = true →
       (TodoApi.createTodo context title newId now =
           .error (TodoApi.ConflictError "Todo title must be unique") ↔
        ∃ t ∈ context.todos, jsToLower t.title = jsToLower title))
    ∧ (∀ (context : TodoApi.Context) (todoId : String)
         (input : TodoApi.UpdateTodoInput) (now : String) (current : TodoApi.Todo),
       context.alive = true →
       TodoApi.distinctTodos context.todos →
       context.todos.find? (fun t => t.id = todoId) = some current →
       (∀ t, input.title = some t → t ≠ "") →
       (TodoApi.updateTodo context todoId input now =
           .error (TodoApi.ConflictError "Todo title must be unique") ↔
        ∃ newTitle, input.title = some newTitle ∧
          ∃ other ∈ context.todos, other.id ≠ todoId ∧
            jsToLower other.title = jsToLower newTitle))
    ∧ (∀ message : String,
       TodoApi.handleHttpError (TodoApi.ConflictError message) =
         sendJson 409 (.obj [("error", .str message), ("code", .str "CONFLICT")])) := by
  refine ⟨?_, ?_, fun _ => rfl⟩
  · intro context title newId now halive
    unfold TodoApi.createTodo
    simp [halive]
    cases hfind : context.todos.find? (fun t => jsToLower t.title = jsToLower title) with
    | some t =>
      simp [hfind]
      exact ⟨t, List.mem_of_find?_eq_some hfind,
        by simpa using List.find?_some hfind⟩
    | none =>
      simp [hfind]
      intro t ht htitle
      have := List.find?_eq_none.mp hfind t ht
      simp [htitle] at this
  · intro context todoId input now current halive hinv hfind hne
    have hcurmem : current ∈ context.todos := List.mem_of_find?_eq_some hfind
    have hcurid : current.id = todoId := by simpa using List.find?_some hfind
    unfold TodoApi.updateTodo
    simp [halive, hfind]
    cases hti : input.title with
    | none => simp
    | some newTitle =>
      have hne' : newTitle ≠ "" := hne newTitle hti
      simp [hne']
      by_cases heq : jsToLower newTitle = jsToLower current.title
      · simp [heq]
        intro other hother hoid htitle
        have hne2 : other ≠ current := fun h => hoid (h ▸ hcurid)
        have hsym : Symmetric (fun a b : TodoApi.Todo =>
            a.id ≠ b.id ∧ jsToLower a.title ≠ jsToLower b.title) :=
          fun a b h => ⟨h.1.symm, h.2.symm⟩
        have hdistinct := List.Pairwise.forall hsym hinv hother hcurmem hne2
        exact hdistinct.2 htitle
      · simp [heq]

/-- C10 witness: creating `"MILK"` when `"Milk"` is stored conflicts;
renaming `"Milk"` to `"EGGS"` when another todo is titled `"Eggs"`
conflicts; and the conflict is a 409 `CONFLICT` envelope. -/
theorem todo_title_uniqueness_case_insensitive_witness :
    TodoApi.createTodo ⟨true, [⟨"id1", "Milk", false, "t0", "t0"⟩]⟩
        "MILK" "id2" "t1" =
      .error (TodoApi.ConflictError "Todo title must be unique") ∧
    TodoApi.updateTodo
        ⟨true, [⟨"id1", "Milk", false, "t0", "t0"⟩,
                ⟨"id2", "Eggs", false, "t0", "t0"⟩]⟩
        "id1" ⟨some "EGGS", none⟩ "t1" =
      .error (TodoApi.ConflictError "Todo title must be unique") ∧
    TodoApi.handleHttpError (TodoApi.ConflictError "Todo title must be unique") =
      sendJson 409 (.obj [("error", .str "Todo title must be unique"),
                          ("code", .str "CONFLICT")]) :=
  ⟨(todo_title_uniqueness_case_insensitive.1
      ⟨true, [⟨"id1", "Milk", false, "t0", "t0"⟩]⟩ "MILK" "id2" "t1" rfl).mpr
      ⟨⟨"id1", "Milk", false, "t0", "t0"⟩, by simp, rfl⟩,
   (todo_title_uniqueness_case_insensitive.2.1
      ⟨true, [⟨"id1", "Milk", false, "t0", "t0"⟩,
              ⟨"id2", "Eggs", false, "t0", "t0"⟩]⟩
      "id1" ⟨some "EGGS", none⟩ "t1" ⟨"id1", "Milk", false, "t0", "t0"⟩ rfl
      (by unfold TodoApi.distinctTodos; decide) rfl
      (by intro t h; injection h with h; subst h; decide)).mpr
      ⟨"EGGS", rfl, ⟨"id2", "Eggs", false, "t0", "t0"⟩, by simp, by decide, rfl⟩,
   todo_title_uniqueness_case_insensitive.2.2 "Todo title must be unique"⟩

/-! ## OpenAPI synthesis (claim C5) -/

/-- Helper: the key list of an empty object. -/
theorem assocKeys_nil {α : Type} : assocKeys ([] : List (String × α)) = [] := rfl

/-- Helper: the key list of a non-empty object. -/
theorem assocKeys_cons {α : Type} (p : String × α) (xs : List (String × α)) :
    assocKeys (p :: xs) = p.1 :: assocKeys xs := rfl

/-- Helper: assignment stores the value under the key. -/
theorem lookupAssoc_setAssoc_self {α : Type} (xs : List (String × α))
    (key : String) (value : α) :
    lookupAssoc (setAssoc xs key value) key = some value := by
  induction xs with
  | nil => simp [setAssoc, lookupAssoc]
  | cons head rest ih =>
    by_cases h : head.1 = key <;> simp [setAssoc, lookupAssoc, h, ih]

/-- Helper: assignment leaves other keys untouched. -/
theorem lookupAssoc_setAssoc_ne {α : Type} (xs : List (String × α))
    (key other : String) (value : α) (h : other ≠ key) :
    lookupAssoc (setAssoc xs key value) other = lookupAssoc xs other := by
  have hko : ¬(key = other) := fun hh => h hh.symm
  induction xs with
  | nil => simp [setAssoc, lookupAssoc, hko]
  | cons head rest ih =>
    by_cases h1 : head.1 = key
    · simp [setAssoc, lookupAssoc, h1, hko]
    · by_cases h2 : head.1 = other <;>
        simp [setAssoc, lookupAssoc, h1, h2, h, ih]

/-- Helper: a key is absent exactly when lookup finds nothing. -/
theorem lookupAssoc_eq_none_iff {α : Type} (xs : List (String × α)) (key : String) :
    lookupAssoc xs key = none ↔ key ∉ assocKeys xs := by
  induction xs with
  | nil => simp [lookupAssoc, assocKeys_nil]
  | cons head rest ih =>
    by_cases h : head.1 = key
    · simp [lookupAssoc, assocKeys_cons, h]
    · have h1 : ¬(key = head.1) := fun hh => h hh.symm
      simp [lookupAssoc, assocKeys_cons, h, h1, ih]

/-- Helper: assigning an existing key keeps the key list. -/
theorem assocKeys_setAssoc_of_mem {α : Type} (xs : List (String × α))
    (key : String) (value : α) (h : key ∈ assocKeys xs) :
    assocKeys (setAssoc xs key value) = assocKeys xs := by
  induction xs with
  | nil => simp [assocKeys_nil] at h
  | cons head rest ih =>
    by_cases h1 : head.1 = key
    · simp [setAssoc, h1, assocKeys_cons]
    · have hx : key = head.1 ∨ key ∈ assocKeys rest := by
        simpa [assocKeys_cons] using h
      have h2 : key ∈ assocKeys rest := by
        rcases hx with hx | hx
        · exact absurd hx.symm h1
        · exact hx
      simp [setAssoc, h1, assocKeys_cons, ih h2]

/-- Helper: assigning a fresh key appends it. -/
theorem assocKeys_setAssoc_of_not_mem {α : Type} (xs : List (String × α))
    (key : String) (value : α) (h : key ∉ assocKeys xs) :
    assocKeys (setAssoc xs key value) = assocKeys xs ++ [key] := by
  induction xs with
  | nil => simp [setAssoc, assocKeys_nil, assocKeys_cons]
  | cons head rest ih =>
    have h1 : ¬(head.1 = key) := fun hh => h (by simp [assocKeys_cons, hh])
    have h2 : key ∉ assocKeys rest := fun hh => h (by
      simp [assocKeys_cons]
      exact Or.inr hh)
    simp [setAssoc, h1, assocKeys_cons, ih h2]

/-- Helper: assignment preserves key uniqueness. -/
theorem nodup_assocKeys_setAssoc {α : Type} (xs : List (String × α))
    (key : String) (value : α) (h : (assocKeys xs).Nodup) :
    (assocKeys (setAssoc xs key value)).Nodup := by
  by_cases hmem : key ∈ assocKeys xs
  · rw [assocKeys_setAssoc_of_mem xs key value hmem]; exact h
  · rw [assocKeys_setAssoc_of_not_mem xs key value hmem]
    simp [List.nodup_append, h, hmem]

/-- Helper: assignment never produces an empty object. -/
theorem setAssoc_ne_nil {α : Type} (xs : List (String × α)) (key : String)
    (value : α) : setAssoc xs key value ≠ [] := by
  cases xs with
  | nil => simp [setAssoc]
  | cons head rest => by_cases h : head.1 = key <;> simp [setAssoc, h]

/-- Helper: the loop body written out. -/
theorem insertOperation_eq (paths : List (String × List (String × Json)))
    (c : ControllerDefinition) :
    insertOperation paths c =
      setAssoc paths c.schema.path
        (setAssoc ((lookupAssoc paths c.schema.path).getD [])
          (jsToLower c.schema.method) (buildOpenApiOperation c)) := rfl

/-- Helper: one loop iteration extends the represented set by the
processed controller, provided its (path, lower-cased method) key is
fresh. -/
theorem insertOperation_represents
    (done : List ControllerDefinition)
    (paths : List (String × List (String × Json)))
    (c : ControllerDefinition)
    (hinv : pathsRepresent done paths)
    (hnew : ∀ c' ∈ done, operationKey c' ≠ operationKey c) :
    pathsRepresent (done ++ [c]) (insertOperation paths c) := by
  obtain ⟨hA, hB, hC⟩ := hinv
  rw [insertOperation_eq]
  refine ⟨?_, ?_, ?_⟩
  · intro c' hc'
    rcases List.mem_append.mp hc' with hc' | hc'
    · obtain ⟨item, hitem, hop⟩ := hA c' hc'
      by_cases hp : c'.schema.path = c.schema.path
      · have hm : jsToLower c'.schema.method ≠ jsToLower c.schema.method := by
          intro hmm
          exact hnew c' hc' (by simp [operationKey, hp, hmm])
        have hold : (lookupAssoc paths c.schema.path).getD [] = item := by
          rw [← hp, hitem]
          rfl
        refine ⟨setAssoc ((lookupAssoc paths c.schema.path).getD [])
          (jsToLower c.schema.method) (buildOpenApiOperation c), ?_, ?_⟩
        · rw [hp]
          exact lookupAssoc_setAssoc_self paths c.schema.path _
        · rw [lookupAssoc_setAssoc_ne _ _ _ _ hm, hold]
          exact hop
      · refine ⟨item, ?_, hop⟩
        rw [lookupAssoc_setAssoc_ne _ _ _ _ hp]
        exact hitem
    · have hcc : c' = c := List.mem_singleton.mp hc'
      rw [hcc]
      exact ⟨setAssoc ((lookupAssoc paths c.schema.path).getD [])
        (jsToLower c.schema.method) (buildOpenApiOperation c),
        lookupAssoc_setAssoc_self paths c.schema.path _,
        lookupAssoc_setAssoc_self _ _ _⟩
  · exact nodup_assocKeys_setAssoc paths c.schema.path _ hB
  · intro p item hlook
    by_cases hp : p = c.schema.path
    · subst hp
      rw [lookupAssoc_setAssoc_self] at hlook
      injection hlook with hlook
      subst hlook
      have holdnodup :
          (assocKeys ((lookupAssoc paths c.schema.path).getD [])).Nodup := by
        cases hacc : lookupAssoc paths c.schema.path with
        | none => simp [assocKeys_nil]
        | some olditem => simpa using (hC c.schema.path olditem hacc).1
      refine ⟨nodup_assocKeys_setAssoc _ _ _ holdnodup, setAssoc_ne_nil _ _ _, ?_⟩
      intro m op hlookop
      by_cases hm : m = jsToLower c.schema.method
      · subst hm
        rw [lookupAssoc_setAssoc_self] at hlookop
        injection hlookop with hlookop
        exact ⟨c, List.mem_append_right _ (List.mem_singleton.mpr rfl),
          rfl, rfl, hlookop.symm⟩
      · rw [lookupAssoc_setAssoc_ne _ _ _ _ hm] at hlookop
        cases hacc : lookupAssoc paths c.schema.path with
        | none => rw [hacc] at hlookop; simp [lookupAssoc] at hlookop
        | some olditem =>
          rw [hacc] at hlookop
          obtain ⟨c', hc', hpath, hmeth, hop⟩ :=
            (hC c.schema.path olditem hacc).2.2 m op hlookop
          exact ⟨c', List.mem_append_left _ hc', hpath, hmeth, hop⟩
    · rw [lookupAssoc_setAssoc_ne _ _ _ _ hp] at hlook
      obtain ⟨hnodup, hne, hops⟩ := hC p item hlook
      refine ⟨hnodup, hne, ?_⟩
      intro m op hlookop
      obtain ⟨c', hc', hpath, hmeth, hop⟩ := hops m op hlookop
      exact ⟨c', List.mem_append_left _ hc', hpath, hmeth, hop⟩

/-- Helper: folding the loop over the remaining controllers preserves the
representation, given globally distinct (path, lower-cased method)
keys. -/
theorem foldl_insertOperation_represents :
    ∀ (cs done : List ControllerDefinition)
      (paths : List (String × List (String × Json))),
      pathsRepresent done paths →
      ((done ++ cs).map operationKey).Nodup →
      pathsRepresent (done ++ cs) (cs.foldl insertOperation paths) := by
  intro cs
  induction cs with
  | nil => intro done paths hinv _; simpa using hinv
  | cons c rest ih =>
    intro done paths hinv hnodup
    have hnew : ∀ c' ∈ done, operationKey c' ≠ operationKey c := by
      intro c' hc' hkey
      have hkey1 : operationKey c ∈ done.map operationKey :=
        hkey ▸ List.mem_map_of_mem operationKey hc'
      have hsplit := (List.nodup_append.mp (by simpa using hnodup)).2.2
      exact hsplit hkey1 (by simp)
    have hstep := insertOperation_represents done paths c hinv hnew
    have hrec := ih (done ++ [c]) (insertOperation paths c) hstep
      (by simpa [List.append_assoc] using hnodup)
    simpa [List.append_assoc] using hrec

/-- C5 (counterexample): `GET /health` is a registered route of the
Notes server's route table, but the synthesized document — generated
from `documentedControllers` only — has no `/health` path entry. -/
theorem health_route_omitted_from_openapi :
    (notesRoutes.map fun r => (r.method, r.controller.schema.path)).contains
      ("GET", "/health") = true ∧
    lookupAssoc (genPaths documentedControllers) "/health" = none ∧
    (generateOpenApiDocument documentedControllers).lookup "paths" =
      some (.obj ((genPaths documentedControllers).map fun p => (p.1, Json.obj p.2))) :=
  ⟨rfl, rfl, rfl⟩

/-- C5 (amended): for every controller list with pairwise-distinct
(path, lower-cased method) keys, the generated `paths` object contains
exactly one path entry per distinct path and, under it, exactly one
operation per controller keyed by the lower-cased method — no controller
passed to the generator is omitted and no path or operation appears
twice, and every operation present belongs to exactly one input
controller.  In the Notes server the generator receives only
`documentedControllers`, so the registered health and OpenAPI routes are
absent from the document (see the counterexample). -/
theorem openapi_one_path_entry_one_operation
    (controllers : List ControllerDefinition)
    (hdistinct : (controllers.map operationKey).Nodup) :
    (∀ c ∈ controllers, ∃ item,
       lookupAssoc (genPaths controllers) c.schema.path = some item ∧
       lookupAssoc item (jsToLower c.schema.method) =
         some (buildOpenApiOperation c))
    ∧ (assocKeys (genPaths controllers)).Nodup
    ∧ (∀ p item, lookupAssoc (genPaths controllers) p = some item →
        (assocKeys item).Nodup ∧ item ≠ [] ∧
        ∀ m op, lookupAssoc item m = some op →
          ∃ c ∈ controllers, c.schema.path = p ∧
            jsToLower c.schema.method = m ∧ op = buildOpenApiOperation c) := by
  have h := foldl_insertOperation_represents controllers [] []
    ⟨by simp, by simp [assocKeys_nil], by simp [lookupAssoc]⟩
    (by simpa using hdistinct)
  simpa [genPaths, pathsRepresent] using h

/-- C5 amended witness: the documented controllers have distinct keys;
the create-note controller is found under `post` of `/notes`, the path
keys are exactly the two distinct paths, and the `/notes` item's
operations both belong to documented controllers. -/
theorem openapi_one_path_entry_one_operation_witness :
    (documentedControllers.map operationKey).Nodup ∧
    (∀ c ∈ documentedControllers, ∃ item,
       lookupAssoc (genPaths documentedControllers) c.schema.path = some item ∧
       lookupAssoc item (jsToLower c.schema.method) =
         some (buildOpenApiOperation c)) ∧
    (assocKeys (genPaths documentedControllers)).Nodup ∧
    (∀ p item, lookupAssoc (genPaths documentedControllers) p = some item →
        (assocKeys item).Nodup ∧ item ≠ [] ∧
        ∀ m op, lookupAssoc item m = some op →
          ∃ c ∈ documentedControllers, c.schema.path = p ∧
            jsToLower c.schema.method = m ∧ op = buildOpenApiOperation c) :=
  ⟨by decide,
   (openapi_one_path_entry_one_operation documentedControllers (by decide)).1,
   (openapi_one_path_entry_one_operation documentedControllers (by decide)).2.1,
   (openapi_one_path_entry_one_operation documentedControllers (by decide)).2.2⟩
